import Mathlib

/-!
# WhatsApp HTTP facade: session/QR persistence, client lifecycle and route handlers

A shallow embedding of `parts/venomClient.js` and `parts/routes.js`.

* The document store, the venom client, the job scheduler and the file system are
  external collaborators.  Every call to one of them is recorded in a trace, and what
  the call does (return or throw) is read from an environment `Env`.
* A JavaScript computation is a function from the world to an outcome (a value or a
  thrown message) together with the world it leaves behind; the world changes made
  before a throw stay in place, as in JavaScript.
* `await` is sequencing: one request is followed from start to end.
-/

namespace WhatsApp

/-! ## Data model -/

/-- A venom client object, as returned by `venom.create`. -/
abbrev Handle := Nat

/-- The fixed session identifier used by every store filter. -/
def sessionId : String := "whatsapp-session"

/-- A document of the `qr_codes` collection. -/
structure QrRecord where
  session : String
  qrCode : Option String
  generatedAt : Option Nat
deriving DecidableEq, Repr

/-- A document of the `sessions` collection. -/
structure SessionRecord where
  session : String
  sessionData : Option String
  updatedAt : Option Nat
deriving DecidableEq, Repr

/-- The JSON body and status passed to `res.status(..).json(..)`. -/
structure Response where
  status : Nat
  success : Option Bool := none
  message : Option String := none
  error : Option String := none
  details : Option String := none
  qrCode : Option String := none
deriving DecidableEq, Repr

/-- One call that leaves the handler: `err` is the message the call threw, if it threw. -/
inductive Event where
  | findOne (coll session : String) (err : Option String)
  | updateOne (coll session : String) (err : Option String)
  | deleteOne (coll session : String) (err : Option String)
  | create (sessionData : Option String) (err : Option String)
  | onStateChange (h : Handle) (err : Option String)
  | getSessionTokenBrowser (h : Handle) (err : Option String)
  | getClient (err : Option String)
  | sendText (h : Handle) (chatId message : String) (err : Option String)
  | sendFile (h : Handle) (chatId path name caption : String) (err : Option String)
  | logout (h : Handle) (err : Option String)
  | close (h : Handle) (err : Option String)
  | unlink (path : String)
  | scheduleJob (instant : Int) (number message : String)
  | respond (r : Response)
deriving DecidableEq, Repr

/-- The mutable state a request can see: the module variable `client` of
`venomClient.js`, the two collections, and the calls made so far (oldest first). -/
structure World where
  client : Option Handle
  qr_codes : List QrRecord
  sessions : List SessionRecord
  trace : List Event
deriving DecidableEq, Repr

/-- What the external collaborators do when called.  `some m` means the call throws an
error with message `m`.  `sendText` is the one operation a handler calls in a loop, so
its outcome may depend on the calls made so far. -/
structure Env where
  storeThrows : String → String → Option String
  create : Option String → Except String Handle
  onStateChange : Handle → Option String
  getSessionTokenBrowser : Handle → Except String String
  sendText : List Event → Handle → String → String → Option String
  sendFile : Handle → String → String → String → String → Option String
  logout : Handle → Option String
  close : Handle → Option String
  now : Nat
  newDate : String → Option Int

/-! ## Computations that may throw -/

/-- A JavaScript computation: runs in a world, returns or throws a message, and leaves
a world behind. -/
def Js (α : Type) : Type := World → Except String α × World

/-- Return a value. -/
def Js.pure {α : Type} (a : α) : Js α := fun w => (.ok a, w)

/-- Sequencing: a throw in the first part skips the second. -/
def Js.bind {α β : Type} (m : Js α) (f : α → Js β) : Js β := fun w =>
  match m w with
  | (.ok a, w1) => f a w1
  | (.error e, w1) => (.error e, w1)

instance : Monad Js where
  pure := Js.pure
  bind := Js.bind

/-- Statement `throw new Error(msg)`. -/
def throwMsg {α : Type} (msg : String) : Js α := fun w => (.error msg, w)

/-- Statement `try { body } catch (error) { handler(error.message) }`. -/
def try_catch {α : Type} (body : Js α) (handler : String → Js α) : Js α := fun w =>
  match body w with
  | (.ok a, w1) => (.ok a, w1)
  | (.error e, w1) => handler e w1

/-- Statement `try { body } finally { fin }`. -/
def try_finally {α : Type} (body : Js α) (fin : Js Unit) : Js α := fun w =>
  match body w with
  | (r, w1) =>
    match fin w1 with
    | (.ok _, w2) => (r, w2)
    | (.error e, w2) => (.error e, w2)

/-- Record a call in the trace. -/
def emit (ev : Event) : Js Unit := fun w => (.ok (), { w with trace := w.trace ++ [ev] })

/-- Throw `m` when the call threw, return otherwise. -/
def raise : Option String → Js Unit
  | none => Js.pure ()
  | some m => throwMsg m

/-! ## The document store -/

/-- Modelled from the spec: the document store is an external collaborator
(`findOne`, `updateOne`-with-upsert, `deleteOne`); a collection is a list of documents
and `findOne` returns the first document whose `session` equals the filter. -/
def findOne {α : Type} (key : α → String) (sid : String) (coll : List α) : Option α :=
  coll.find? (fun d => key d == sid)

/-- Modelled from the spec: `deleteOne` removes the first document whose `session`
equals the filter, and no other. -/
def deleteOne {α : Type} (key : α → String) (sid : String) (coll : List α) : List α :=
  coll.eraseP (fun d => key d == sid)

/-- Modelled from the spec: upsert is update-if-exists-else-insert, keyed by session
identifier: `set` is applied to the first document whose `session` equals the filter,
and `fresh` is appended when there is none. -/
def updateOne {α : Type} (key : α → String) (sid : String) (set : α → α) (fresh : α) :
    List α → List α
  | [] => [fresh]
  | d :: ds => if key d == sid then set d :: ds else d :: updateOne key sid set fresh ds

/-! ## venomClient.js -/

/-- Call `sessionCollection.findOne({ session })`. -/
def sessionsFindOne (env : Env) (sid : String) : Js (Option SessionRecord) := fun w =>
  match env.storeThrows "findOne" "sessions" with
  | some m => (.error m, { w with trace := w.trace ++ [.findOne "sessions" sid (some m)] })
  | none =>
    (.ok (findOne SessionRecord.session sid w.sessions),
      { w with trace := w.trace ++ [.findOne "sessions" sid none] })

/-- Call `qrCollection.findOne({ session })`. -/
def qrFindOne (env : Env) (sid : String) : Js (Option QrRecord) := fun w =>
  match env.storeThrows "findOne" "qr_codes" with
  | some m => (.error m, { w with trace := w.trace ++ [.findOne "qr_codes" sid (some m)] })
  | none =>
    (.ok (findOne QrRecord.session sid w.qr_codes),
      { w with trace := w.trace ++ [.findOne "qr_codes" sid none] })

/-- Call `qrCollection.updateOne({ session }, { $set: { qrCode, generatedAt } },
{ upsert: true })`. -/
def qrUpdateOne (env : Env) (sid base64Qr : String) (date : Nat) : Js Unit := fun w =>
  match env.storeThrows "updateOne" "qr_codes" with
  | some m => (.error m, { w with trace := w.trace ++ [.updateOne "qr_codes" sid (some m)] })
  | none =>
    (.ok (),
      { w with
        qr_codes :=
          updateOne QrRecord.session sid
            (fun d => { d with qrCode := some base64Qr, generatedAt := some date })
            { session := sid, qrCode := some base64Qr, generatedAt := some date } w.qr_codes
        trace := w.trace ++ [.updateOne "qr_codes" sid none] })

/-- Call `sessionCollection.updateOne({ session }, { $set: { sessionData, updatedAt } },
{ upsert: true })`. -/
def sessionsUpdateOne (env : Env) (sid sessionToken : String) (date : Nat) : Js Unit :=
  fun w =>
  match env.storeThrows "updateOne" "sessions" with
  | some m => (.error m, { w with trace := w.trace ++ [.updateOne "sessions" sid (some m)] })
  | none =>
    (.ok (),
      { w with
        sessions :=
          updateOne SessionRecord.session sid
            (fun d => { d with sessionData := some sessionToken, updatedAt := some date })
            { session := sid, sessionData := some sessionToken, updatedAt := some date }
            w.sessions
        trace := w.trace ++ [.updateOne "sessions" sid none] })

/-- Call `qrCollection.deleteOne({ session })`. -/
def qrDeleteOne (env : Env) (sid : String) : Js Unit := fun w =>
  match env.storeThrows "deleteOne" "qr_codes" with
  | some m => (.error m, { w with trace := w.trace ++ [.deleteOne "qr_codes" sid (some m)] })
  | none =>
    (.ok (),
      { w with
        qr_codes := deleteOne QrRecord.session sid w.qr_codes
        trace := w.trace ++ [.deleteOne "qr_codes" sid none] })

/-- Call `sessionCollection.deleteOne({ session })`. -/
def sessionsDeleteOne (env : Env) (sid : String) : Js Unit := fun w =>
  match env.storeThrows "deleteOne" "sessions" with
  | some m => (.error m, { w with trace := w.trace ++ [.deleteOne "sessions" sid (some m)] })
  | none =>
    (.ok (),
      { w with
        sessions := deleteOne SessionRecord.session sid w.sessions
        trace := w.trace ++ [.deleteOne "sessions" sid none] })

/-- The `catchQR` callback handed to `venom.create`: saves the QR code. -/
def catchQR (env : Env) (base64Qr : String) : Js Unit :=
  qrUpdateOne env sessionId base64Qr env.now

/-- Call `venom.create(..)` with the stored session data. -/
def venomCreate (env : Env) (sessionData : Option String) : Js Handle := fun w =>
  match env.create sessionData with
  | .ok h => (.ok h, { w with trace := w.trace ++ [.create sessionData none] })
  | .error m => (.error m, { w with trace := w.trace ++ [.create sessionData (some m)] })

/-- Assignment `client = ..` to the module variable. -/
def setClient (h : Handle) : Js Unit := fun w => (.ok (), { w with client := some h })

/-- Call `client.onStateChange(callback)`: registers the observer. -/
def clientOnStateChange (env : Env) (h : Handle) : Js Unit := do
  emit (.onStateChange h (env.onStateChange h))
  raise (env.onStateChange h)

/-- Function `initializeVenom` of `venomClient.js`. -/
def initializeVenom (env : Env) : Js Unit :=
  try_catch
    (do
      let sessionData ← sessionsFindOne env sessionId
      let h ← venomCreate env
        (match sessionData with
          | some d => d.sessionData
          | none => none)
      setClient h
      clientOnStateChange env h)
    (fun _ => Js.pure ())

/-- Function `getClient` of `venomClient.js`. -/
def getClient : Js Handle := fun w =>
  match w.client with
  | none =>
    (.error "WhatsApp client not initialized",
      { w with trace := w.trace ++ [.getClient (some "WhatsApp client not initialized")] })
  | some h => (.ok h, { w with trace := w.trace ++ [.getClient none] })

/-- The observer registered by `initializeVenom`: on `CONNECTED` it fetches the session
token from the module variable `client` and upserts it; a rejected token promise or a
failed write is logged and goes no further. -/
def stateChangeObserver (env : Env) (state : String) : Js Unit := fun w =>
  if state == "CONNECTED" then
    match w.client with
    | none => (.error "Cannot read properties of undefined", w)
    | some h =>
      match env.getSessionTokenBrowser h with
      | .error m =>
        (.ok (), { w with trace := w.trace ++ [.getSessionTokenBrowser h (some m)] })
      | .ok sessionToken =>
        try_catch (sessionsUpdateOne env sessionId sessionToken env.now) (fun _ => Js.pure ())
          { w with trace := w.trace ++ [.getSessionTokenBrowser h none] }
  else (.ok (), w)

/-! ## routes.js -/

/-- Call `res.status(..).json(..)`. -/
def respond (r : Response) : Js Unit := emit (.respond r)

/-- Call `client.sendText(chatId, message)`. -/
def clientSendText (env : Env) (h : Handle) (chatId message : String) : Js Unit := fun w =>
  raise (env.sendText w.trace h chatId message)
    { w with trace := w.trace ++ [.sendText h chatId message (env.sendText w.trace h chatId message)] }

/-- Call `client.sendFile(chatId, filePath, originalname, caption)`. -/
def clientSendFile (env : Env) (h : Handle) (chatId path name caption : String) : Js Unit := do
  emit (.sendFile h chatId path name caption (env.sendFile h chatId path name caption))
  raise (env.sendFile h chatId path name caption)

/-- Call `client.logout()`. -/
def clientLogout (env : Env) (h : Handle) : Js Unit := do
  emit (.logout h (env.logout h))
  raise (env.logout h)

/-- Call `client.close()`. -/
def clientClose (env : Env) (h : Handle) : Js Unit := do
  emit (.close h (env.close h))
  raise (env.close h)

/-- Handler of `POST /api/send-message`. -/
def sendMessage (env : Env) (number message : String) : Js Unit :=
  try_catch
    (do
      let client ← getClient
      let chatId := number ++ "@c.us"
      clientSendText env client chatId message
      respond { status := 200, success := some true, message := some "Message sent successfully!" })
    (fun _ =>
      respond { status := 500, success := some false, error := some "Failed to send message." })

/-- Handler of `POST /api/send-media`, for a request whose upload is stored at `filePath`
under the original name `originalname`. -/
def sendMedia (env : Env) (number : String) (caption : Option String)
    (filePath originalname : String) : Js Unit :=
  try_finally
    (try_catch
      (do
        let client ← getClient
        let chatId := number ++ "@c.us"
        clientSendFile env client chatId filePath originalname (caption.getD "")
        respond { status := 200, success := some true, message := some "Media sent successfully!" })
      (fun _ =>
        respond { status := 500, success := some false, error := some "Failed to send media." }))
    (emit (.unlink filePath))

/-- The `for (const number of numbers)` loop of the bulk handler: a failed send is caught
and the loop goes on. -/
def sendBulkLoop (env : Env) (client : Handle) (message : String) : List String → Js Unit
  | [] => Js.pure ()
  | number :: rest => do
    let chatId := number ++ "@c.us"
    try_catch (clientSendText env client chatId message) (fun _ => Js.pure ())
    sendBulkLoop env client message rest

/-- Handler of `POST /api/send-bulk-messages`; `numbers` is `none` when the body carries
no iterable `numbers`. -/
def sendBulkMessages (env : Env) (numbers : Option (List String)) (message : String) : Js Unit :=
  try_catch
    (do
      let client ← getClient
      match numbers with
        | none => throwMsg "numbers is not iterable"
        | some ns => sendBulkLoop env client message ns
      respond
        { status := 200, success := some true,
          message := some "Bulk messages processed successfully!" })
    (fun _ =>
      respond
        { status := 500, success := some false, error := some "Failed to send bulk messages." })

/-- JavaScript truthiness of a string field that may be missing. -/
def truthy : Option String → Bool
  | none => false
  | some s => s != ""

/-- Handler of `GET /api/get-qr-code`. -/
def getQrCode (env : Env) : Js Unit :=
  try_catch
    (do
      let qrCode ← qrFindOne env sessionId
      match qrCode with
        | some d =>
          if truthy d.qrCode then respond { status := 200, qrCode := d.qrCode }
          else respond { status := 404, error := some "QR code not found" }
        | none => respond { status := 404, error := some "QR code not found" })
    (fun _ => respond { status := 500, error := some "Failed to fetch QR code" })

/-- The callback handed to `schedule.scheduleJob`: runs when the job fires. -/
def scheduledJob (env : Env) (number message : String) : Js Unit :=
  try_catch
    (do
      let client ← getClient
      let chatId := number ++ "@c.us"
      clientSendText env client chatId message)
    (fun _ => Js.pure ())

/-- Handler of `POST /api/schedule-message`; `env.newDate` is `new Date(..)`, with `none`
for an invalid date. -/
def scheduleMessage (env : Env) (number message scheduledTime : String) : Js Unit :=
  match env.newDate scheduledTime with
  | none =>
    respond { status := 400, success := some false, error := some "Invalid scheduled time format." }
  | some scheduleDate => do
    emit (.scheduleJob scheduleDate number message)
    respond { status := 200, success := some true, message := some "Message scheduled successfully!" }

/-- Handler of `POST /api/logout`. -/
def logout (env : Env) : Js Unit :=
  try_catch
    (do
      qrDeleteOne env sessionId
      sessionsDeleteOne env sessionId
      let client ← getClient
      try_catch (clientLogout env client) (fun _ => throwMsg "Failed to logout from WhatsApp.")
      try_catch (clientClose env client) (fun _ => throwMsg "Failed to stop Venom client.")
      respond
        { status := 200, success := some true,
          message := some "Logged out successfully, session and tokens cleared from the database." })
    (fun msg =>
      respond
        { status := 500, success := some false,
          error := some "Failed to logout and clear session.", details := some msg })

/-- Handler of `POST /api/generate-new-qr`. -/
def generateNewQr (env : Env) : Js Unit :=
  try_catch
    (do
      initializeVenom env
      respond { status := 200, success := some true, message := some "New QR code generated successfully!" })
    (fun _ =>
      respond { status := 500, success := some false, error := some "Failed to generate new QR code." })

/-! ## Reading a trace -/

/-- The responses sent, in order. -/
def responses : List Event → List Response
  | [] => []
  | .respond r :: t => r :: responses t
  | _ :: t => responses t

/-- The events a computation added when started in world `w`. -/
def newEvents {α : Type} (w : World) (r : Except String α × World) : List Event :=
  r.2.trace.drop w.trace.length

/-- The chat ids handed to `sendText`, in call order. -/
def sendTextChats : List Event → List String
  | [] => []
  | .sendText _ chatId _ _ :: t => chatId :: sendTextChats t
  | _ :: t => sendTextChats t

/-- Number of `sendText` calls that returned. -/
def completedSends : List Event → Nat
  | [] => 0
  | .sendText _ _ _ none :: t => completedSends t + 1
  | _ :: t => completedSends t

/-- Number of `sendText` calls that threw. -/
def failedSends : List Event → Nat
  | [] => 0
  | .sendText _ _ _ (some _) :: t => failedSends t + 1
  | _ :: t => failedSends t

/-- The paths handed to `fs.unlink`, in call order. -/
def unlinks : List Event → List String
  | [] => []
  | .unlink p :: t => p :: unlinks t
  | _ :: t => unlinks t

/-- What the client answers to the sends of one bulk request, in list order, when the
calls made before the first send are `t`. -/
def bulkOutcomes (env : Env) (h : Handle) (message : String) :
    List Event → List String → List (Option String)
  | _, [] => []
  | t, number :: rest =>
    env.sendText t h (number ++ "@c.us") message ::
      bulkOutcomes env h message
        (t ++ [.sendText h (number ++ "@c.us") message
          (env.sendText t h (number ++ "@c.us") message)]) rest

/-- One `sendText` event per number, with the given outcomes. -/
def bulkSends (h : Handle) (message : String) (numbers : List String)
    (outs : List (Option String)) : List Event :=
  List.zipWith (fun number err => Event.sendText h (number ++ "@c.us") message err) numbers outs

/-- The session data `initializeVenom` hands to `venom.create` in world `w`. -/
def storedSessionData (w : World) : Option String :=
  match findOne SessionRecord.session sessionId w.sessions with
  | some d => d.sessionData
  | none => none

/-- Whether a run of `initializeVenom` in world `w` obtains a client: the store lookup
returns and `venom.create` returns. -/
def constructs (env : Env) (w : World) : Bool :=
  match env.storeThrows "findOne" "sessions" with
  | some _ => false
  | none =>
    match env.create (storedSessionData w) with
    | .ok _ => true
    | .error _ => false

/-- Run `initializeVenom` once per environment, in order. -/
def initializeAll : List Env → World → World
  | [], w => w
  | env :: rest, w => initializeAll rest (initializeVenom env w).2

/-- No run of the sequence obtains a client. -/
def noneConstructs : List Env → World → Bool
  | [], _ => true
  | env :: rest, w => !constructs env w && noneConstructs rest (initializeVenom env w).2

/-- A callback the venom library makes into the program. -/
inductive Callback where
  | qr (base64Qr : String)
  | stateChange (state : String)
deriving DecidableEq, Repr

/-- Run one callback; what it throws goes back to the library. -/
def runCallback (env : Env) : Callback → Js Unit
  | .qr base64Qr => catchQR env base64Qr
  | .stateChange state => stateChangeObserver env state

/-- Run a sequence of callbacks, each with its own environment. -/
def runCallbacks : List (Env × Callback) → World → World
  | [], w => w
  | (env, cb) :: rest, w => runCallbacks rest (runCallback env cb w).2

/-- The documents of a `qr_codes` collection that belong to the fixed session. -/
def qrRecordsOf (coll : List QrRecord) : List QrRecord :=
  coll.filter (fun d => d.session == sessionId)

/-- The documents of a `sessions` collection that belong to the fixed session. -/
def sessionRecordsOf (coll : List SessionRecord) : List SessionRecord :=
  coll.filter (fun d => d.session == sessionId)

/-- An environment in which no call throws: the client built is handle `1`, the
session token is `"token"`, and the only valid date text is `"2030-01-01T00:00:00Z"`. -/
def quietEnv : Env where
  storeThrows := fun _ _ => none
  create := fun _ => .ok 1
  onStateChange := fun _ => none
  getSessionTokenBrowser := fun _ => .ok "token"
  sendText := fun _ _ _ _ => none
  sendFile := fun _ _ _ _ _ => none
  logout := fun _ => none
  close := fun _ => none
  now := 1000
  newDate := fun s => if s = "2030-01-01T00:00:00Z" then some 1893456000000 else none

/-- The world at process start: `let client;` and an empty store. -/
def startWorld : World := { client := none, qr_codes := [], sessions := [], trace := [] }

/-- As `quietEnv`, but `client.logout()` throws `"boom"`. -/
def boomEnv : Env := { quietEnv with logout := fun _ => some "boom" }

/-- As `quietEnv`, but `venom.create` throws `"launch failed"`. -/
def failEnv : Env := { quietEnv with create := fun _ => .error "launch failed" }

/-- As `quietEnv`, but `sendText` throws for the chat id `"222@c.us"`. -/
def flakyEnv : Env :=
  { quietEnv with sendText := fun _ _ chatId _ => if chatId = "222@c.us" then some "no such chat" else none }

/-- A world with client `7` and one stored document per collection. -/
def readyWorld : World :=
  { client := some 7
    qr_codes := [{ session := "whatsapp-session", qrCode := some "QR0", generatedAt := some 5 }]
    sessions := [{ session := "whatsapp-session", sessionData := some "tok0", updatedAt := some 6 }]
    trace := [] }

/-! ## Reading traces: helper lemmas -/

/-- The responses of a concatenated trace. -/
theorem responses_append (a b : List Event) : responses (a ++ b) = responses a ++ responses b := by
  induction a with
  | nil => rfl
  | cons e t ih => cases e <;> simp [responses, ih]

/-- The chat ids of a concatenated trace. -/
theorem sendTextChats_append (a b : List Event) :
    sendTextChats (a ++ b) = sendTextChats a ++ sendTextChats b := by
  induction a with
  | nil => rfl
  | cons e t ih => cases e <;> simp [sendTextChats, ih]

/-- The completed sends of a concatenated trace. -/
theorem completedSends_append (a b : List Event) :
    completedSends (a ++ b) = completedSends a + completedSends b := by
  induction a with
  | nil => simp [completedSends]
  | cons e t ih =>
    cases e with
    | sendText h c m err =>
      cases err with
      | none => simp [completedSends, ih]; omega
      | some x => simp [completedSends, ih]
    | _ => simp [completedSends, ih]

/-- The failed sends of a concatenated trace. -/
theorem failedSends_append (a b : List Event) :
    failedSends (a ++ b) = failedSends a + failedSends b := by
  induction a with
  | nil => simp [failedSends]
  | cons e t ih =>
    cases e with
    | sendText h c m err =>
      cases err with
      | none => simp [failedSends, ih]
      | some x => simp [failedSends, ih]; omega
    | _ => simp [failedSends, ih]

/-- Removing a document leaves a sublist of the collection. -/
theorem deleteOne_sublist {α : Type} (key : α → String) (sid : String) (coll : List α) :
    (deleteOne key sid coll).Sublist coll := by
  unfold deleteOne
  exact List.eraseP_sublist coll

/-- After an upsert into a collection with at most one document for the session, the
documents of the session are exactly the upserted one. -/
theorem updateOne_filter {α : Type} (key : α → String) (sid : String) (set : α → α) (fresh : α)
    (hfresh : key fresh = sid) (hset : ∀ d, key d = sid → set d = fresh) :
    ∀ coll : List α, (coll.filter (fun d => key d == sid)).length ≤ 1 →
      (updateOne key sid set fresh coll).filter (fun d => key d == sid) = [fresh] := by
  intro coll
  induction coll with
  | nil => intro _; simp [updateOne, hfresh]
  | cons d ds ih =>
    intro hle
    by_cases hd : key d = sid
    · have hnil : ds.filter (fun d => key d == sid) = [] := by
        have : (ds.filter (fun d => key d == sid)).length = 0 := by
          simp [List.filter_cons, hd] at hle
          simpa using hle
        exact List.length_eq_zero.mp this
      simp [updateOne, hd, hset d hd, hfresh, List.filter_cons, hnil]
    · have hle2 : (ds.filter (fun d => key d == sid)).length ≤ 1 := by
        simpa [List.filter_cons, hd] using hle
      simp [updateOne, hd, List.filter_cons, ih hle2]

/-! ## Client lifecycle -/

/-- What one run of `initializeVenom` leaves behind: it returns, sends no response, leaves
the store alone, and replaces the client exactly when `venom.create` returned. -/
theorem initializeVenom_result (env : Env) (w : World) :
    (initializeVenom env w).1 = .ok () ∧
      (∃ evs, (initializeVenom env w).2.trace = w.trace ++ evs ∧ responses evs = []) ∧
      (initializeVenom env w).2.qr_codes = w.qr_codes ∧
      (initializeVenom env w).2.sessions = w.sessions ∧
      (initializeVenom env w).2.client =
        if constructs env w then
          (match env.create (storedSessionData w) with
            | .ok h => some h
            | .error _ => w.client)
        else w.client := by
  cases h1 : env.storeThrows "findOne" "sessions" with
  | some m =>
    simp [initializeVenom, try_catch, bind, Js.bind, sessionsFindOne, Js.pure, h1, constructs,
      responses]
  | none =>
    cases h2 : env.create (storedSessionData w) with
    | error m =>
      simp only [storedSessionData] at h2
      simp [initializeVenom, try_catch, bind, Js.bind, sessionsFindOne, Js.pure, h1, h2,
        constructs, venomCreate, storedSessionData, responses]
    | ok h =>
      simp only [storedSessionData] at h2
      cases h3 : env.onStateChange h <;>
      simp [initializeVenom, try_catch, bind, Js.bind, sessionsFindOne, Js.pure, h1, h2, h3,
        constructs, venomCreate, storedSessionData, responses, setClient, clientOnStateChange,
        emit, raise, throwMsg]

/-- C4: started with no client and run through any sequence of `initializeVenom` calls
none of which obtains a client (the store lookup or `venom.create` throws in each),
`getClient` throws `WhatsApp client not initialized`; and in every world that holds a
client, `getClient` returns exactly that client and changes neither the client nor the
store.  A run in which `venom.create` returned counts as having obtained a client, also
when registering the observer throws afterwards. -/
theorem getClient_not_initialized (envs : List Env) (w : World) :
    (w.client = none → noneConstructs envs w = true →
      getClient (initializeAll envs w) =
        (.error "WhatsApp client not initialized",
          { initializeAll envs w with
            trace := (initializeAll envs w).trace ++
              [.getClient (some "WhatsApp client not initialized")] })) ∧
    (∀ h, w.client = some h →
      getClient w = (.ok h, { w with trace := w.trace ++ [.getClient none] })) := by
  constructor
  · intro hn hall
    have key : ∀ (es : List Env) (v : World), v.client = none → noneConstructs es v = true →
        (initializeAll es v).client = none := by
      intro es
      induction es with
      | nil => intro v hv _; simpa [initializeAll] using hv
      | cons e rest ih =>
        intro v hv hes
        simp only [noneConstructs, Bool.and_eq_true, Bool.not_eq_true'] at hes
        simp only [initializeAll]
        apply ih _ _ hes.2
        rw [(initializeVenom_result e v).2.2.2.2, hes.1]
        simpa using hv
    simp [getClient, key envs w hn hall]
  · intro h hh
    simp [getClient, hh]

/-- Witness of C4: two failed initializations, one by `venom.create` and one by the
store, leave `getClient` throwing. -/
theorem getClient_not_initialized_witness :
    startWorld.client = none ∧
      noneConstructs [failEnv, { quietEnv with storeThrows := fun _ _ => some "store down" }]
        startWorld = true ∧
      (getClient
        (initializeAll [failEnv, { quietEnv with storeThrows := fun _ _ => some "store down" }]
          startWorld)).1 = .error "WhatsApp client not initialized" :=
  ⟨rfl, rfl,
    congrArg Prod.fst
      ((getClient_not_initialized
        [failEnv, { quietEnv with storeThrows := fun _ _ => some "store down" }] startWorld).1
        rfl rfl)⟩

/-- C5 as stated fails: with client `7` held, an `initializeVenom` whose `venom.create`
throws returns normally but leaves client `7` in place, and `getClient` returns it. -/
theorem initializeVenom_keeps_held_handle :
    readyWorld.client = some 7 ∧
      failEnv.storeThrows "findOne" "sessions" = none ∧
      failEnv.create (storedSessionData readyWorld) = .error "launch failed" ∧
      (initializeVenom failEnv readyWorld).1 = .ok () ∧
      (initializeVenom failEnv readyWorld).2.client = some 7 ∧
      (initializeVenom failEnv readyWorld).2.client ≠ none ∧
      (getClient (initializeVenom failEnv readyWorld).2).1 = .ok 7 :=
  ⟨rfl, rfl, rfl, rfl, rfl, by decide, rfl⟩

/-- C5 (amended): when the store lookup returns and `venom.create` throws,
`initializeVenom` returns without throwing and leaves the module variable `client` as it
was: with no client held before, the next `getClient` throws
`WhatsApp client not initialized`; a client held before is still returned. -/
theorem initializeVenom_create_throws (env : Env) (w : World) (m : String)
    (hf : env.storeThrows "findOne" "sessions" = none)
    (hc : env.create (storedSessionData w) = .error m) :
    initializeVenom env w =
        (.ok (),
          { w with
            trace := w.trace ++
              [.findOne "sessions" sessionId none, .create (storedSessionData w) (some m)] }) ∧
      (initializeVenom env w).2.client = w.client ∧
      (w.client = none →
        (getClient (initializeVenom env w).2).1 = .error "WhatsApp client not initialized") ∧
      (∀ h, w.client = some h → (getClient (initializeVenom env w).2).1 = .ok h) := by
  have h0 : initializeVenom env w =
        (.ok (),
          { w with
            trace := w.trace ++
              [.findOne "sessions" sessionId none, .create (storedSessionData w) (some m)] }) := by
    simp only [storedSessionData] at hc
    simp [initializeVenom, try_catch, bind, Js.bind, sessionsFindOne, Js.pure, hf, hc,
      venomCreate, storedSessionData]
  refine ⟨h0, ?_, ?_, ?_⟩
  · rw [h0]
  · intro hn
    rw [h0]
    simp [getClient, hn]
  · intro h hh
    rw [h0]
    simp [getClient, hh]

/-- Witness of C5 (amended): from the start world, a throwing `venom.create` leaves
`getClient` throwing. -/
theorem initializeVenom_create_throws_witness :
    failEnv.create (storedSessionData startWorld) = .error "launch failed" ∧
      (getClient (initializeVenom failEnv startWorld).2).1 =
        .error "WhatsApp client not initialized" :=
  ⟨rfl, (initializeVenom_create_throws failEnv startWorld "launch failed" rfl rfl).2.2.1 rfl⟩

/-- C10: `initializeVenom` returns normally in every environment and world, so the
generate-new-qr handler always sends the one response `200` with the success payload,
after whatever `initializeVenom` did; it never sends `500`. -/
theorem generateNewQr_always_succeeds (env : Env) (w : World) :
    (initializeVenom env w).1 = .ok () ∧
      generateNewQr env w =
        (.ok (),
          { (initializeVenom env w).2 with
            trace := (initializeVenom env w).2.trace ++
              [.respond
                { status := 200, success := some true,
                  message := some "New QR code generated successfully!" }] }) ∧
      responses (newEvents w (generateNewQr env w)) =
        [{ status := 200, success := some true,
           message := some "New QR code generated successfully!" }] := by
  obtain ⟨h1, ⟨evs, h2, h3⟩, -, -, -⟩ := initializeVenom_result env w
  have h4 : generateNewQr env w =
        (.ok (),
          { (initializeVenom env w).2 with
            trace := (initializeVenom env w).2.trace ++
              [.respond
                { status := 200, success := some true,
                  message := some "New QR code generated successfully!" }] }) := by
    rcases h5 : initializeVenom env w with ⟨r, w1⟩
    rw [h5] at h1
    simp only at h1
    subst h1
    simp [generateNewQr, try_catch, bind, Js.bind, h5, respond, emit]
  refine ⟨h1, h4, ?_⟩
  rw [h4]
  simp [newEvents, h2, responses_append, h3, responses]

/-! ## Upserts -/

/-- The `catchQR` callback changes only `qr_codes`; when the write returns, the documents
of the session are exactly the new one. -/
theorem catchQR_store (env : Env) (base64Qr : String) (w : World)
    (hq : (qrRecordsOf w.qr_codes).length ≤ 1) :
    (catchQR env base64Qr w).2.sessions = w.sessions ∧
      (catchQR env base64Qr w).2.client = w.client ∧
      (env.storeThrows "updateOne" "qr_codes" = none →
        qrRecordsOf (catchQR env base64Qr w).2.qr_codes =
          [{ session := sessionId, qrCode := some base64Qr, generatedAt := some env.now }]) ∧
      (∀ m, env.storeThrows "updateOne" "qr_codes" = some m →
        (catchQR env base64Qr w).2.qr_codes = w.qr_codes) := by
  cases h1 : env.storeThrows "updateOne" "qr_codes" with
  | some m => simp [catchQR, qrUpdateOne, h1]
  | none =>
    simp only [catchQR, qrUpdateOne, h1, qrRecordsOf]
    refine ⟨trivial, trivial, fun _ => ?_, fun m hm => by cases hm⟩
    apply updateOne_filter QrRecord.session sessionId _ _ rfl _ _ hq
    intro d hd
    cases d
    simp_all

/-- The state-change observer changes only `sessions`; when it writes, the documents of
the session are exactly the new one. -/
theorem stateChangeObserver_store (env : Env) (state : String) (w : World)
    (hs : (sessionRecordsOf w.sessions).length ≤ 1) :
    (stateChangeObserver env state w).2.qr_codes = w.qr_codes ∧
      (stateChangeObserver env state w).2.client = w.client ∧
      ((stateChangeObserver env state w).2.sessions = w.sessions ∨
        ∃ t, sessionRecordsOf (stateChangeObserver env state w).2.sessions =
          [{ session := sessionId, sessionData := some t, updatedAt := some env.now }]) ∧
      (∀ h t, state = "CONNECTED" → w.client = some h →
        env.getSessionTokenBrowser h = .ok t → env.storeThrows "updateOne" "sessions" = none →
        sessionRecordsOf (stateChangeObserver env state w).2.sessions =
          [{ session := sessionId, sessionData := some t, updatedAt := some env.now }]) := by
  have key : ∀ t, sessionRecordsOf
      (updateOne SessionRecord.session sessionId
        (fun d => { d with sessionData := some t, updatedAt := some env.now })
        { session := sessionId, sessionData := some t, updatedAt := some env.now } w.sessions) =
      [{ session := sessionId, sessionData := some t, updatedAt := some env.now }] := by
    intro t
    apply updateOne_filter SessionRecord.session sessionId _ _ rfl _ _ hs
    intro d hd
    cases d
    simp_all
  by_cases hst : state = "CONNECTED"
  · cases hc : w.client with
    | none => simp [stateChangeObserver, hst, hc]
    | some h =>
      cases ht : env.getSessionTokenBrowser h with
      | error m =>
        simp only [stateChangeObserver, hst, hc]
        refine ⟨by simp [ht], by simp [ht, hc], by simp [ht], ?_⟩
        intro h2 t2 _ hh ht2 _
        cases hh
        rw [ht] at ht2
        cases ht2
      | ok t =>
        cases hu : env.storeThrows "updateOne" "sessions" with
        | some m => simp [stateChangeObserver, hst, hc, ht, hu, try_catch, sessionsUpdateOne, Js.pure]
        | none =>
          simp only [stateChangeObserver, hst, hc]
          refine ⟨by simp [ht, hu, try_catch, sessionsUpdateOne],
            by simp [ht, hu, try_catch, sessionsUpdateOne, hc],
            by simp [ht, hu, try_catch, sessionsUpdateOne, key], ?_⟩
          intro h2 t2 _ hh ht2 _
          cases hh
          rw [ht] at ht2
          cases ht2
          simp [ht, hu, try_catch, sessionsUpdateOne, key]
  · simp [stateChangeObserver, hst]

/-- One callback keeps at most one document per collection for the session. -/
theorem runCallback_keeps_one (env : Env) (cb : Callback) (w : World)
    (hq : (qrRecordsOf w.qr_codes).length ≤ 1) (hs : (sessionRecordsOf w.sessions).length ≤ 1) :
    (qrRecordsOf (runCallback env cb w).2.qr_codes).length ≤ 1 ∧
      (sessionRecordsOf (runCallback env cb w).2.sessions).length ≤ 1 := by
  cases cb with
  | qr b =>
    obtain ⟨h1, -, h3, h4⟩ := catchQR_store env b w hq
    simp only [runCallback, h1]
    refine ⟨?_, hs⟩
    cases h : env.storeThrows "updateOne" "qr_codes" with
    | none => rw [h3 h]; simp
    | some m => rw [h4 m h]; exact hq
  | stateChange s =>
    obtain ⟨h1, -, h3, -⟩ := stateChangeObserver_store env s w hs
    simp only [runCallback, h1]
    refine ⟨hq, ?_⟩
    rcases h3 with h | ⟨t, h⟩
    · rw [h]; exact hs
    · rw [h]; simp

/-- C8: from a store with at most one `qr_codes` document and at most one `sessions`
document for the session id, every sequence of `catchQR` and state-change callbacks
(each in its own environment, failed writes included) leaves at most one of each; two
QR upserts in a row leave exactly one `qr_codes` document for the session, holding the
second code and the second timestamp, and two `CONNECTED` upserts leave exactly one
`sessions` document, holding the second token and the second timestamp. -/
theorem upserts_keep_one_record (w : World)
    (hq : (qrRecordsOf w.qr_codes).length ≤ 1) (hs : (sessionRecordsOf w.sessions).length ≤ 1) :
    (∀ steps : List (Env × Callback),
      (qrRecordsOf (runCallbacks steps w).qr_codes).length ≤ 1 ∧
        (sessionRecordsOf (runCallbacks steps w).sessions).length ≤ 1) ∧
    (∀ (env1 env2 : Env) (q1 q2 : String),
      env1.storeThrows "updateOne" "qr_codes" = none →
      env2.storeThrows "updateOne" "qr_codes" = none →
      qrRecordsOf (runCallbacks [(env1, .qr q1), (env2, .qr q2)] w).qr_codes =
        [{ session := sessionId, qrCode := some q2, generatedAt := some env2.now }]) ∧
    (∀ (env1 env2 : Env) (h : Handle) (t1 t2 : String), w.client = some h →
      env1.getSessionTokenBrowser h = .ok t1 → env1.storeThrows "updateOne" "sessions" = none →
      env2.getSessionTokenBrowser h = .ok t2 → env2.storeThrows "updateOne" "sessions" = none →
      sessionRecordsOf
          (runCallbacks [(env1, .stateChange "CONNECTED"), (env2, .stateChange "CONNECTED")]
            w).sessions =
        [{ session := sessionId, sessionData := some t2, updatedAt := some env2.now }]) := by
  refine ⟨?_, ?_, ?_⟩
  · intro steps
    induction steps generalizing w with
    | nil => exact ⟨hq, hs⟩
    | cons step rest ih =>
      obtain ⟨env, cb⟩ := step
      obtain ⟨h1, h2⟩ := runCallback_keeps_one env cb w hq hs
      exact ih _ h1 h2
  · intro env1 env2 q1 q2 h1 h2
    have ha := (catchQR_store env1 q1 w hq).2.2.1 h1
    have hq1 : (qrRecordsOf (catchQR env1 q1 w).2.qr_codes).length ≤ 1 := by rw [ha]; simp
    exact (catchQR_store env2 q2 _ hq1).2.2.1 h2
  · intro env1 env2 h t1 t2 hc ht1 hu1 ht2 hu2
    obtain ⟨-, hc1, -, ha⟩ := stateChangeObserver_store env1 "CONNECTED" w hs
    have hb := ha h t1 rfl hc ht1 hu1
    have hs1 : (sessionRecordsOf (stateChangeObserver env1 "CONNECTED" w).2.sessions).length ≤ 1 := by
      rw [hb]; simp
    exact (stateChangeObserver_store env2 "CONNECTED" _ hs1).2.2.2 h t2 rfl (hc1.trans hc) ht2 hu2

/-- Witness of C8: two QR upserts over a stored record leave one record with the second
code. -/
theorem upserts_keep_one_record_witness :
    (qrRecordsOf readyWorld.qr_codes).length ≤ 1 ∧
      (sessionRecordsOf readyWorld.sessions).length ≤ 1 ∧
      qrRecordsOf
          (runCallbacks [(quietEnv, .qr "QR1"), ({ quietEnv with now := 2000 }, .qr "QR2")]
            readyWorld).qr_codes =
        [{ session := "whatsapp-session", qrCode := some "QR2", generatedAt := some 2000 }] :=
  ⟨by decide, by decide,
    (upserts_keep_one_record readyWorld (by decide) (by decide)).2.1 quietEnv
      { quietEnv with now := 2000 } "QR1" "QR2" rfl rfl⟩

/-! ## Route handlers -/

/-- C1 as stated fails: both deletes return and `client.logout()` throws `"boom"`, yet the
`details` of the response is the fixed text `Failed to logout from WhatsApp.`, not
`"boom"`. -/
theorem logout_details_not_thrown_message :
    readyWorld.client = some 7 ∧
      boomEnv.storeThrows "deleteOne" "qr_codes" = none ∧
      boomEnv.storeThrows "deleteOne" "sessions" = none ∧
      boomEnv.logout 7 = some "boom" ∧
      (responses (logout boomEnv readyWorld).2.trace).map Response.details =
        [some "Failed to logout from WhatsApp."] ∧
      (responses (logout boomEnv readyWorld).2.trace).map Response.details ≠ [some "boom"] := by
  decide

/-- C1 (amended): with a client held, both deletes returning and `client.logout()`
throwing a message `m`, the logout handler issues the two `deleteOne` calls, then
`getClient`, then `logout`, and only then responds `500` with `details` equal to the
fixed text `Failed to logout from WhatsApp.`; both records are deleted and `close` is
not called. -/
theorem logout_client_throws (env : Env) (w : World) (h : Handle) (m : String)
    (hc : w.client = some h)
    (hq : env.storeThrows "deleteOne" "qr_codes" = none)
    (hs : env.storeThrows "deleteOne" "sessions" = none)
    (hl : env.logout h = some m) :
    logout env w =
      (.ok (),
        { client := some h
          qr_codes := deleteOne QrRecord.session sessionId w.qr_codes
          sessions := deleteOne SessionRecord.session sessionId w.sessions
          trace := w.trace ++
            [.deleteOne "qr_codes" sessionId none, .deleteOne "sessions" sessionId none,
              .getClient none, .logout h (some m),
              .respond
                { status := 500, success := some false,
                  error := some "Failed to logout and clear session.",
                  details := some "Failed to logout from WhatsApp." }] }) := by
  simp [logout, try_catch, bind, Js.bind, qrDeleteOne, sessionsDeleteOne, getClient, clientLogout,
    clientClose, respond, emit, raise, throwMsg, Js.pure, hc, hq, hs, hl]

/-- Witness of C1 (amended): the logout of `readyWorld` when `client.logout()` throws
`"boom"`. -/
theorem logout_client_throws_witness :
    boomEnv.logout 7 = some "boom" ∧
      logout boomEnv readyWorld =
        (.ok (),
          { client := some 7
            qr_codes := []
            sessions := []
            trace :=
              [.deleteOne "qr_codes" "whatsapp-session" none,
                .deleteOne "sessions" "whatsapp-session" none,
                .getClient none, .logout 7 (some "boom"),
                .respond
                  { status := 500, success := some false,
                    error := some "Failed to logout and clear session.",
                    details := some "Failed to logout from WhatsApp." }] }) :=
  ⟨rfl, logout_client_throws boomEnv readyWorld 7 "boom" rfl rfl rfl rfl⟩

/-- C9: the logout handler runs `deleteOne` on `qr_codes`, `deleteOne` on `sessions`,
`getClient`, `client.logout()`, `client.close()` in this order and stops at the first
that throws, then sends one response: `200` exactly when all five return; when
`logout()` throws, `close()` is not called; with no client both deletes are done and the
response is `500` with details `WhatsApp client not initialized`; and each collection
after the handler is a sublist of the collection before (nothing is put back). -/
theorem logout_steps (env : Env) (w : World) :
    (∀ m, env.storeThrows "deleteOne" "qr_codes" = some m →
      logout env w =
        (.ok (),
          { w with
            trace := w.trace ++
              [.deleteOne "qr_codes" sessionId (some m),
                .respond
                  { status := 500, success := some false,
                    error := some "Failed to logout and clear session.", details := some m }] })) ∧
    (∀ m, env.storeThrows "deleteOne" "qr_codes" = none →
      env.storeThrows "deleteOne" "sessions" = some m →
      logout env w =
        (.ok (),
          { w with
            qr_codes := deleteOne QrRecord.session sessionId w.qr_codes
            trace := w.trace ++
              [.deleteOne "qr_codes" sessionId none, .deleteOne "sessions" sessionId (some m),
                .respond
                  { status := 500, success := some false,
                    error := some "Failed to logout and clear session.", details := some m }] })) ∧
    (env.storeThrows "deleteOne" "qr_codes" = none →
      env.storeThrows "deleteOne" "sessions" = none →
      w.client = none →
      logout env w =
        (.ok (),
          { client := none
            qr_codes := deleteOne QrRecord.session sessionId w.qr_codes
            sessions := deleteOne SessionRecord.session sessionId w.sessions
            trace := w.trace ++
              [.deleteOne "qr_codes" sessionId none, .deleteOne "sessions" sessionId none,
                .getClient (some "WhatsApp client not initialized"),
                .respond
                  { status := 500, success := some false,
                    error := some "Failed to logout and clear session.",
                    details := some "WhatsApp client not initialized" }] })) ∧
    (∀ h m, env.storeThrows "deleteOne" "qr_codes" = none →
      env.storeThrows "deleteOne" "sessions" = none →
      w.client = some h → env.logout h = some m →
      newEvents w (logout env w) =
        [.deleteOne "qr_codes" sessionId none, .deleteOne "sessions" sessionId none,
          .getClient none, .logout h (some m),
          .respond
            { status := 500, success := some false,
              error := some "Failed to logout and clear session.",
              details := some "Failed to logout from WhatsApp." }]) ∧
    (∀ h m, env.storeThrows "deleteOne" "qr_codes" = none →
      env.storeThrows "deleteOne" "sessions" = none →
      w.client = some h → env.logout h = none → env.close h = some m →
      newEvents w (logout env w) =
        [.deleteOne "qr_codes" sessionId none, .deleteOne "sessions" sessionId none,
          .getClient none, .logout h none, .close h (some m),
          .respond
            { status := 500, success := some false,
              error := some "Failed to logout and clear session.",
              details := some "Failed to stop Venom client." }]) ∧
    (∀ h, env.storeThrows "deleteOne" "qr_codes" = none →
      env.storeThrows "deleteOne" "sessions" = none →
      w.client = some h → env.logout h = none → env.close h = none →
      logout env w =
        (.ok (),
          { client := some h
            qr_codes := deleteOne QrRecord.session sessionId w.qr_codes
            sessions := deleteOne SessionRecord.session sessionId w.sessions
            trace := w.trace ++
              [.deleteOne "qr_codes" sessionId none, .deleteOne "sessions" sessionId none,
                .getClient none, .logout h none, .close h none,
                .respond
                  { status := 200, success := some true,
                    message :=
                      some "Logged out successfully, session and tokens cleared from the database." }] })) ∧
    ((responses (newEvents w (logout env w))).map Response.status = [200] ↔
      env.storeThrows "deleteOne" "qr_codes" = none ∧
        env.storeThrows "deleteOne" "sessions" = none ∧
        ∃ h, w.client = some h ∧ env.logout h = none ∧ env.close h = none) ∧
    (logout env w).2.qr_codes.Sublist w.qr_codes ∧
    (logout env w).2.sessions.Sublist w.sessions := by
  have hq := deleteOne_sublist QrRecord.session sessionId w.qr_codes
  have hs := deleteOne_sublist SessionRecord.session sessionId w.sessions
  cases h1 : env.storeThrows "deleteOne" "qr_codes" <;>
  cases h2 : env.storeThrows "deleteOne" "sessions" <;>
  cases h3 : w.client <;>
  (try cases h4 : env.logout ‹Handle› <;> cases h5 : env.close ‹Handle›) <;>
  simp_all [logout, try_catch, bind, Js.bind, qrDeleteOne, sessionsDeleteOne, getClient, clientLogout,
    clientClose, respond, emit, raise, throwMsg, Js.pure, newEvents, responses]

/-- Witness of C9: logout with no client still deletes and answers `500`. -/
theorem logout_steps_witness :
    quietEnv.storeThrows "deleteOne" "qr_codes" = none ∧
      quietEnv.storeThrows "deleteOne" "sessions" = none ∧
      startWorld.client = none ∧
      logout quietEnv startWorld =
        (.ok (),
          { client := none
            qr_codes := []
            sessions := []
            trace :=
              [.deleteOne "qr_codes" "whatsapp-session" none,
                .deleteOne "sessions" "whatsapp-session" none,
                .getClient (some "WhatsApp client not initialized"),
                .respond
                  { status := 500, success := some false,
                    error := some "Failed to logout and clear session.",
                    details := some "WhatsApp client not initialized" }] }) :=
  ⟨rfl, rfl, rfl, (logout_steps quietEnv startWorld).2.2.1 rfl rfl rfl⟩

/-- The bulk loop never throws and adds one `sendText` event per number, with the
outcomes the client gives in order. -/
theorem sendBulkLoop_run (env : Env) (h : Handle) (message : String) (numbers : List String) :
    ∀ w : World, sendBulkLoop env h message numbers w =
      (.ok (),
        { w with
          trace := w.trace ++
            bulkSends h message numbers (bulkOutcomes env h message w.trace numbers) }) := by
  induction numbers with
  | nil => intro w; simp [sendBulkLoop, Js.pure, bulkSends, bulkOutcomes]
  | cons n rest ih =>
    intro w
    cases hs : env.sendText w.trace h (n ++ "@c.us") message <;>
    simp [sendBulkLoop, bind, Js.bind, try_catch, clientSendText, raise, Js.pure, throwMsg, hs, ih,
      bulkSends, bulkOutcomes]

/-- The outcomes of a bulk request are one per number. -/
theorem bulkOutcomes_length (env : Env) (h : Handle) (message : String) (numbers : List String) :
    ∀ t, (bulkOutcomes env h message t numbers).length = numbers.length := by
  induction numbers with
  | nil => intro t; rfl
  | cons n rest ih => intro t; simp [bulkOutcomes, ih]

/-- Reading the `sendText` events of a bulk request: no response among them, the chat
ids are the numbers with `@c.us` appended, and every send either completed or failed. -/
theorem bulkSends_read (h : Handle) (message : String) (numbers : List String) :
    ∀ outs : List (Option String), outs.length = numbers.length →
      responses (bulkSends h message numbers outs) = [] ∧
        sendTextChats (bulkSends h message numbers outs) = numbers.map (fun n => n ++ "@c.us") ∧
        completedSends (bulkSends h message numbers outs) +
          failedSends (bulkSends h message numbers outs) = numbers.length := by
  induction numbers with
  | nil => intro outs _; simp [bulkSends, responses, sendTextChats, completedSends, failedSends]
  | cons n rest ih =>
    intro outs hl
    cases outs with
    | nil => simp at hl
    | cons o os =>
      have hl2 : os.length = rest.length := by simpa using hl
      obtain ⟨h0, h1, h2⟩ := ih os hl2
      simp only [bulkSends] at h0 h1 h2
      cases o <;>
        simp [bulkSends, responses, sendTextChats, completedSends, failedSends, h0, h1] <;> omega

/-- C2: with a client held, the bulk handler given a list of `N` numbers calls
`getClient`, then `sendText` once per number in list order with chat id
`<number>@c.us`, whatever each call does, then responds `200` with `success: true`; the
sends that complete are `N - k`, where `k` is the number of sends that threw. -/
theorem sendBulkMessages_best_effort (env : Env) (w : World) (h : Handle)
    (numbers : List String) (message : String) (hc : w.client = some h) :
    sendBulkMessages env (some numbers) message w =
        (.ok (),
          { w with
            trace := w.trace ++ [.getClient none] ++
              bulkSends h message numbers
                (bulkOutcomes env h message (w.trace ++ [.getClient none]) numbers) ++
              [.respond
                { status := 200, success := some true,
                  message := some "Bulk messages processed successfully!" }] }) ∧
      (bulkOutcomes env h message (w.trace ++ [.getClient none]) numbers).length = numbers.length ∧
      responses (newEvents w (sendBulkMessages env (some numbers) message w)) =
        [{ status := 200, success := some true,
           message := some "Bulk messages processed successfully!" }] ∧
      sendTextChats (newEvents w (sendBulkMessages env (some numbers) message w)) =
        numbers.map (fun number => number ++ "@c.us") ∧
      completedSends (newEvents w (sendBulkMessages env (some numbers) message w)) =
        numbers.length - failedSends (newEvents w (sendBulkMessages env (some numbers) message w)) ∧
      failedSends (newEvents w (sendBulkMessages env (some numbers) message w)) ≤ numbers.length := by
  have hlen := bulkOutcomes_length env h message numbers (w.trace ++ [.getClient none])
  obtain ⟨hr, h1, h2⟩ := bulkSends_read h message numbers _ hlen
  have h0 : sendBulkMessages env (some numbers) message w =
        (.ok (),
          { w with
            trace := w.trace ++ [.getClient none] ++
              bulkSends h message numbers
                (bulkOutcomes env h message (w.trace ++ [.getClient none]) numbers) ++
              [.respond
                { status := 200, success := some true,
                  message := some "Bulk messages processed successfully!" }] }) := by
    simp [sendBulkMessages, try_catch, bind, Js.bind, getClient, hc, sendBulkLoop_run, respond, emit]
  have hn : newEvents w (sendBulkMessages env (some numbers) message w) =
      Event.getClient none ::
        (bulkSends h message numbers
            (bulkOutcomes env h message (w.trace ++ [.getClient none]) numbers) ++
          [.respond
            { status := 200, success := some true,
              message := some "Bulk messages processed successfully!" }]) := by
    rw [h0]
    simp [newEvents, List.append_assoc]
  refine ⟨h0, hlen, ?_, ?_, ?_, ?_⟩
  · rw [hn]
    simp [responses, responses_append, hr]
  · rw [hn]
    simp [sendTextChats, sendTextChats_append, h1]
  · rw [hn]
    simp only [completedSends, failedSends, completedSends_append, failedSends_append]
    omega
  · rw [hn]
    simp only [completedSends, failedSends, completedSends_append, failedSends_append]
    omega

/-- Witness of C2: three numbers, the second of which fails: two sends complete. -/
theorem sendBulkMessages_best_effort_witness :
    readyWorld.client = some 7 ∧
      sendBulkMessages flakyEnv (some ["111", "222", "333"]) "hi" readyWorld =
        (.ok (),
          { readyWorld with
            trace :=
              [.getClient none,
                .sendText 7 "111@c.us" "hi" none,
                .sendText 7 "222@c.us" "hi" (some "no such chat"),
                .sendText 7 "333@c.us" "hi" none,
                .respond
                  { status := 200, success := some true,
                    message := some "Bulk messages processed successfully!" }] }) :=
  ⟨rfl, (sendBulkMessages_best_effort flakyEnv readyWorld 7 ["111", "222", "333"] "hi" rfl).1⟩

/-- C6: for a send-media request whose upload is at `filePath`, the handler first
attempts the send, then responds, then calls `unlink` on `filePath` exactly once: the
response is `200` when `sendFile` returns and `500` when it throws or when no client is
held. -/
theorem sendMedia_unlinks_once (env : Env) (w : World) (number : String) (caption : Option String)
    (filePath originalname : String) :
    (w.client = none →
      sendMedia env number caption filePath originalname w =
        (.ok (),
          { w with
            trace := w.trace ++
              [.getClient (some "WhatsApp client not initialized"),
                .respond
                  { status := 500, success := some false, error := some "Failed to send media." },
                .unlink filePath] })) ∧
    (∀ h, w.client = some h →
      env.sendFile h (number ++ "@c.us") filePath originalname (caption.getD "") = none →
      sendMedia env number caption filePath originalname w =
        (.ok (),
          { w with
            trace := w.trace ++
              [.getClient none,
                .sendFile h (number ++ "@c.us") filePath originalname (caption.getD "") none,
                .respond
                  { status := 200, success := some true, message := some "Media sent successfully!" },
                .unlink filePath] })) ∧
    (∀ h m, w.client = some h →
      env.sendFile h (number ++ "@c.us") filePath originalname (caption.getD "") = some m →
      sendMedia env number caption filePath originalname w =
        (.ok (),
          { w with
            trace := w.trace ++
              [.getClient none,
                .sendFile h (number ++ "@c.us") filePath originalname (caption.getD "") (some m),
                .respond
                  { status := 500, success := some false, error := some "Failed to send media." },
                .unlink filePath] })) ∧
    unlinks (newEvents w (sendMedia env number caption filePath originalname w)) = [filePath] := by
  cases h3 : w.client <;>
  (try cases h4 : env.sendFile ‹Handle› (number ++ "@c.us") filePath originalname (caption.getD "")) <;>
  simp_all [sendMedia, try_catch, try_finally, bind, Js.bind, getClient, clientSendFile,
    respond, emit, raise, throwMsg, Js.pure, newEvents, unlinks]

/-- Witness of C6: a throwing `sendFile` still ends with the unlink. -/
theorem sendMedia_unlinks_once_witness :
    readyWorld.client = some 7 ∧
      sendMedia { quietEnv with sendFile := fun _ _ _ _ _ => some "upload failed" } "111" none
          "uploads/file-1.png" "cat.png" readyWorld =
        (.ok (),
          { readyWorld with
            trace :=
              [.getClient none,
                .sendFile 7 "111@c.us" "uploads/file-1.png" "cat.png" "" (some "upload failed"),
                .respond
                  { status := 500, success := some false, error := some "Failed to send media." },
                .unlink "uploads/file-1.png"] }) :=
  ⟨rfl,
    (sendMedia_unlinks_once { quietEnv with sendFile := fun _ _ _ _ _ => some "upload failed" }
      readyWorld "111" none "uploads/file-1.png" "cat.png").2.2.1 7 "upload failed" rfl rfl⟩

/-- C7: the get-qr-code handler looks up the `qr_codes` document of the session once.
It responds `404` when there is none or when its `qrCode` is missing or empty, `200`
carrying the stored `qrCode` when that is a non-empty string, and `500` exactly when the
lookup throws. -/
theorem getQrCode_status (env : Env) (w : World) :
    (∀ m, env.storeThrows "findOne" "qr_codes" = some m →
      getQrCode env w =
        (.ok (),
          { w with
            trace := w.trace ++
              [.findOne "qr_codes" sessionId (some m),
                .respond { status := 500, error := some "Failed to fetch QR code" }] })) ∧
    (env.storeThrows "findOne" "qr_codes" = none →
      findOne QrRecord.session sessionId w.qr_codes = none →
      getQrCode env w =
        (.ok (),
          { w with
            trace := w.trace ++
              [.findOne "qr_codes" sessionId none,
                .respond { status := 404, error := some "QR code not found" }] })) ∧
    (∀ d, env.storeThrows "findOne" "qr_codes" = none →
      findOne QrRecord.session sessionId w.qr_codes = some d →
      d.qrCode = none ∨ d.qrCode = some "" →
      getQrCode env w =
        (.ok (),
          { w with
            trace := w.trace ++
              [.findOne "qr_codes" sessionId none,
                .respond { status := 404, error := some "QR code not found" }] })) ∧
    (∀ d s, env.storeThrows "findOne" "qr_codes" = none →
      findOne QrRecord.session sessionId w.qr_codes = some d →
      d.qrCode = some s → s ≠ "" →
      getQrCode env w =
        (.ok (),
          { w with
            trace := w.trace ++
              [.findOne "qr_codes" sessionId none,
                .respond { status := 200, qrCode := some s }] })) ∧
    ((responses (newEvents w (getQrCode env w))).map Response.status = [500] ↔
      ∃ m, env.storeThrows "findOne" "qr_codes" = some m) := by
  cases h1 : env.storeThrows "findOne" "qr_codes" <;>
  cases h2 : findOne QrRecord.session sessionId w.qr_codes <;>
  (try cases h3 : (‹QrRecord›).qrCode) <;>
  (try by_cases h4 : ‹String› = "") <;>
  simp_all [getQrCode, try_catch, bind, Js.bind, qrFindOne, truthy,
    respond, emit, raise, throwMsg, Js.pure, newEvents, responses]

/-- Witness of C7: an empty store answers `404`, a stored code answers `200` with it. -/
theorem getQrCode_status_witness :
    findOne QrRecord.session sessionId startWorld.qr_codes = none ∧
      getQrCode quietEnv startWorld =
        (.ok (),
          { startWorld with
            trace :=
              [.findOne "qr_codes" "whatsapp-session" none,
                .respond { status := 404, error := some "QR code not found" }] }) ∧
      getQrCode quietEnv readyWorld =
        (.ok (),
          { readyWorld with
            trace :=
              [.findOne "qr_codes" "whatsapp-session" none,
                .respond { status := 200, qrCode := some "QR0" }] }) :=
  ⟨rfl, (getQrCode_status quietEnv startWorld).2.1 rfl rfl,
    (getQrCode_status quietEnv readyWorld).2.2.2.1
      { session := "whatsapp-session", qrCode := some "QR0", generatedAt := some 5 } "QR0"
      rfl rfl rfl (by decide)⟩

/-- C3: the schedule-message handler responds `400` without calling `scheduleJob` when
`new Date(scheduledTime)` is invalid; otherwise it calls `scheduleJob` once with that
instant and responds `200`.  What it does is the same in every world (client held or
not), and the job callback, whenever it runs, returns without throwing and sends no
response, whether `getClient` or `sendText` throws or not. -/
theorem scheduleMessage_validates (env : Env) (w : World) (number message scheduledTime : String) :
    (env.newDate scheduledTime = none →
      scheduleMessage env number message scheduledTime w =
        (.ok (),
          { w with
            trace := w.trace ++
              [.respond
                { status := 400, success := some false,
                  error := some "Invalid scheduled time format." }] })) ∧
    (∀ scheduleDate, env.newDate scheduledTime = some scheduleDate →
      scheduleMessage env number message scheduledTime w =
        (.ok (),
          { w with
            trace := w.trace ++
              [.scheduleJob scheduleDate number message,
                .respond
                  { status := 200, success := some true,
                    message := some "Message scheduled successfully!" }] })) ∧
    (∀ w2 : World,
      newEvents w2 (scheduleMessage env number message scheduledTime w2) =
        newEvents w (scheduleMessage env number message scheduledTime w)) ∧
    (∀ (jobEnv : Env) (wj : World),
      (scheduledJob jobEnv number message wj).1 = .ok () ∧
        responses (newEvents wj (scheduledJob jobEnv number message wj)) = []) := by
  refine ⟨?_, ?_, ?_, ?_⟩
  · intro h
    simp [scheduleMessage, h, respond, emit]
  · intro d h
    simp [scheduleMessage, h, respond, emit, bind, Js.bind]
  · intro w2
    cases h : env.newDate scheduledTime <;>
      simp [scheduleMessage, h, respond, emit, bind, Js.bind, newEvents]
  · intro jobEnv wj
    cases h3 : wj.client <;>
    (try cases h4 : jobEnv.sendText (wj.trace ++ [.getClient none]) ‹Handle› (number ++ "@c.us") message) <;>
    simp_all [scheduledJob, try_catch, bind, Js.bind, getClient, clientSendText,
      respond, emit, raise, throwMsg, Js.pure, newEvents, responses]

/-- Witness of C3: `"not-a-date"` is answered `400` with no job, a valid instant `200`
with one job. -/
theorem scheduleMessage_validates_witness :
    quietEnv.newDate "not-a-date" = none ∧
      scheduleMessage quietEnv "111" "hi" "not-a-date" startWorld =
        (.ok (),
          { startWorld with
            trace :=
              [.respond
                { status := 400, success := some false,
                  error := some "Invalid scheduled time format." }] }) ∧
      scheduleMessage quietEnv "111" "hi" "2030-01-01T00:00:00Z" startWorld =
        (.ok (),
          { startWorld with
            trace :=
              [.scheduleJob 1893456000000 "111" "hi",
                .respond
                  { status := 200, success := some true,
                    message := some "Message scheduled successfully!" }] }) :=
  ⟨by decide,
    (scheduleMessage_validates quietEnv startWorld "111" "hi" "not-a-date").1 (by decide),
    (scheduleMessage_validates quietEnv startWorld "111" "hi" "2030-01-01T00:00:00Z").2.1
      1893456000000 (by decide)⟩

end WhatsApp
